import Mathlib

/-!
Verification development for the `symbiont` Python SDK.

The embedding below covers the two parts of the repository the claims are
about:

* `src/symbiont/exceptions.py` and `src/symbiont/client.py`, translated
  directly from the source; and
* the JWT authentication subsystem (`symbiont.auth`, `symbiont.config`),
  which is exercised by `src/tests/test_new_features.py` but whose module
  is not part of the source tree; it is modelled from the specification.

Python's wall clock is made explicit as an integer `now` parameter, and
Python exceptions become `Except` values carrying a record that mirrors
the exception classes of `exceptions.py`.
-/

/-- Equality of `Except` values is decidable when it is on both sides;
used to evaluate the model on concrete inputs. -/
instance {ε α : Type} [DecidableEq ε] [DecidableEq α] : DecidableEq (Except ε α) := fun
  | .ok a, .ok b => decidable_of_iff (a = b) (by simp)
  | .ok _, .error _ => isFalse (by simp)
  | .error _, .ok _ => isFalse (by simp)
  | .error e, .error f => decidable_of_iff (e = f) (by simp)

/-! ## Exception classes (`src/symbiont/exceptions.py`) -/

/-- The exception classes declared in `src/symbiont/exceptions.py`. -/
inductive ExcClass where
  | symbiontError
  | apiError
  | authenticationError
  | notFoundError
  | rateLimitError
  | configurationError
  | authenticationExpiredError
  | tokenRefreshError
  | permissionDeniedError
  | memoryError
  | memoryStorageError
  | memoryRetrievalError
deriving DecidableEq, Repr

/-- The direct base class of each exception class, read off the
`class X(Y)` headers of `src/symbiont/exceptions.py`; `SymbiontError`
derives from Python's built-in `Exception`, modelled as `none`. -/
def ExcClass.superclass : ExcClass → Option ExcClass
  | .symbiontError => none
  | .apiError => some .symbiontError
  | .authenticationError => some .symbiontError
  | .notFoundError => some .symbiontError
  | .rateLimitError => some .symbiontError
  | .configurationError => some .symbiontError
  | .authenticationExpiredError => some .authenticationError
  | .tokenRefreshError => some .authenticationError
  | .permissionDeniedError => some .symbiontError
  | .memoryError => some .symbiontError
  | .memoryStorageError => some .memoryError
  | .memoryRetrievalError => some .memoryError

/-- Reflexive-transitive closure of `ExcClass.superclass`, bounded by a
fuel larger than any inheritance chain in the module. -/
def ExcClass.isSubclassOfAux : Nat → ExcClass → ExcClass → Bool
  | 0, _, _ => false
  | n + 1, c, d =>
    c = d ||
      match c.superclass with
      | none => false
      | some p => ExcClass.isSubclassOfAux n p d

/-- Python `issubclass` on the exception classes of `exceptions.py`
(a `try/except AuthenticationError` block catches exactly the classes
below `AuthenticationError` in this relation). -/
def ExcClass.isSubclassOf (c d : ExcClass) : Bool :=
  ExcClass.isSubclassOfAux 12 c d

/-- A constructed exception instance: its (dynamic) class together with
the attributes the constructors of `exceptions.py` store (`message`,
`status_code`, `response_text`).  The auxiliary attributes `config_key`,
`required_permission`, `storage_type` and `memory_id` play no role in any
claim and are omitted. -/
structure ExcValue where
  cls : ExcClass
  message : String
  status_code : Option Nat
  response_text : Option String
deriving DecidableEq, Repr

/-- `SymbiontError.__init__(message, status_code=None)`: stores the
message and status code; the dynamic class is threaded explicitly. -/
def mkSymbiontError (cls : ExcClass) (message : String) (status_code : Option Nat) : ExcValue :=
  { cls := cls, message := message, status_code := status_code, response_text := none }

/-- `APIError.__init__(message, status_code, response_text=None)`: calls
`SymbiontError.__init__(message, status_code)` then stores `response_text`. -/
def mkAPIError (message : String) (status_code : Nat) (response_text : Option String) : ExcValue :=
  { mkSymbiontError .apiError message (some status_code) with response_text := response_text }

/-- `AuthenticationError.__init__(message, response_text=None)`: calls
`SymbiontError.__init__(message, 401)` then stores `response_text`. -/
def mkAuthenticationError (message : String) (response_text : Option String) : ExcValue :=
  { mkSymbiontError .authenticationError message (some 401) with response_text := response_text }

/-- `NotFoundError.__init__(message, response_text=None)`: calls
`SymbiontError.__init__(message, 404)` then stores `response_text`. -/
def mkNotFoundError (message : String) (response_text : Option String) : ExcValue :=
  { mkSymbiontError .notFoundError message (some 404) with response_text := response_text }

/-- `RateLimitError.__init__(message, response_text=None)`: calls
`SymbiontError.__init__(message, 429)` then stores `response_text`. -/
def mkRateLimitError (message : String) (response_text : Option String) : ExcValue :=
  { mkSymbiontError .rateLimitError message (some 429) with response_text := response_text }

/-- `ConfigurationError.__init__(message, config_key=None)`: calls
`SymbiontError.__init__(message)`, so the status code stays `None`. -/
def mkConfigurationError (message : String) : ExcValue :=
  mkSymbiontError .configurationError message none

/-- `AuthenticationExpiredError.__init__(message, response_text=None)`:
calls `AuthenticationError.__init__(message, response_text)`; only the
dynamic class differs from a plain `AuthenticationError`. -/
def mkAuthenticationExpiredError (message : String) (response_text : Option String) : ExcValue :=
  { mkAuthenticationError message response_text with cls := .authenticationExpiredError }

/-- `TokenRefreshError.__init__(message, response_text=None)`: calls
`AuthenticationError.__init__(message, response_text)`; only the dynamic
class differs from a plain `AuthenticationError`. -/
def mkTokenRefreshError (message : String) (response_text : Option String) : ExcValue :=
  { mkAuthenticationError message response_text with cls := .tokenRefreshError }

/-! ## HTTP client (`src/symbiont/client.py`) -/

/-- The part of a `requests.Response` that `Client._request` reads. -/
structure Response where
  status_code : Nat
  text : String
deriving DecidableEq, Repr

/-- Python dict assignment `headers[key] = value` on an association-list
model of the header dict: the key is bound to the new value, any previous
binding is dropped. -/
def setHeader (hs : List (String × String)) (key value : String) : List (String × String) :=
  (key, value) :: hs.filter (fun p => p.1 ≠ key)

/-- Dict lookup on the association-list model of the header dict. -/
def lookupHeader (hs : List (String × String)) (key : String) : Option String :=
  (hs.find? (fun p => p.1 == key)).map (fun p => p.2)

/-- The header-building step of `Client._request`
(`src/symbiont/client.py` lines 50-52): starting from the caller-supplied
headers, `if self.api_key: headers['Authorization'] = f'Bearer {api_key}'`.
Python truthiness makes both `None` and the empty string skip the branch. -/
def requestHeaders (api_key : Option String) (hs : List (String × String)) :
    List (String × String) :=
  match api_key with
  | none => hs
  | some k => if k = "" then hs else setHeader hs "Authorization" ("Bearer " ++ k)

/-- The status-code handling of `Client._request`
(`src/symbiont/client.py` lines 57-84), translated branch for branch:
2xx responses are returned, 401/404/429 raise their dedicated exception
classes, every other status raises `APIError`; each raised exception
carries the response body as `response_text`. -/
def handleStatus (r : Response) : Except ExcValue Response :=
  if ¬ (200 ≤ r.status_code ∧ r.status_code < 300) then
    if r.status_code = 401 then
      .error (mkAuthenticationError "Authentication failed - check your API key" (some r.text))
    else if r.status_code = 404 then
      .error (mkNotFoundError "Resource not found" (some r.text))
    else if r.status_code = 429 then
      .error (mkRateLimitError "Rate limit exceeded - too many requests" (some r.text))
    else
      .error (mkAPIError ("API request failed with status " ++ toString r.status_code)
        r.status_code (some r.text))
  else
    .ok r

/-- `Client._request` with the network call made explicit: the headers
actually sent are `requestHeaders`, and the response handed back by
`requests.request` is dispatched by `handleStatus`. -/
def Client.request (api_key : Option String) (hs : List (String × String)) (r : Response) :
    List (String × String) × Except ExcValue Response :=
  (requestHeaders api_key hs, handleStatus r)

/-! ## Authentication subsystem (`symbiont.auth` / `symbiont.config`)

The module implementing `AuthManager`, `AuthUser`, the token codec and the
role registry is imported by `src/tests/test_new_features.py` but is not
part of the source tree, so the definitions below are modelled from the
specification (sections 3, 4 and 6 of `spec.md`). -/

/-- Modelled from the spec: the two token kinds (`Access | Refresh`);
the missing `symbiont.auth` module embeds the kind in the signed claims. -/
inductive TokenKind where
  | access
  | refresh
deriving DecidableEq, Repr

/-- Modelled from the spec: the claims record encoded inside a token —
`sub` (user id), `roles` (list of strings), `kind`, `iat` (issued-at) and
`exp` (expiry); timestamps are integer seconds. -/
structure Claims where
  sub : String
  roles : List String
  kind : TokenKind
  iat : Int
  exp : Int
deriving DecidableEq, Repr

/-- Modelled from the spec: the space of token strings presented to the
codec.  A string either parses as a signed claims payload together with a
signature value, or is malformed; `tokenString` below renders the parsed
form back to the string it stands for. -/
inductive TokenWire where
  | signed (claims : Claims) (sig : Nat)
  | malformed (raw : String)
deriving DecidableEq, Repr

/-- Numeric code of a string, used by the model's symmetric MAC. -/
def strCode (s : String) : Nat :=
  s.data.foldl (fun a c => a * 131 + (c.toNat + 1)) 7

/-- Numeric code of a token kind. -/
def TokenKind.code : TokenKind → Nat
  | .access => 1
  | .refresh => 2

/-- Modelled from the spec: the symmetric signature over the claims — a
pure function of the secret and every claims field, standing in for the
HMAC of the missing `symbiont.auth` module. -/
def macClaims (secret : String) (c : Claims) : Nat :=
  strCode secret * 1000003 +
    strCode c.sub * 101 +
    (c.roles.foldl (fun a r => a * 97 + strCode r) 3) * 11 +
    c.kind.code * 5 +
    c.iat.natAbs * 13 +
    c.exp.natAbs * 17

/-- Kind marker used as the leading segment of the rendered token string. -/
def TokenKind.mark : TokenKind → String
  | .access => "access"
  | .refresh => "refresh"

/-- Digit rendering of the numeric fields of the token string. -/
def natDigits : Nat → List Char
  | n => (Nat.toDigits 10 n)

/-- Modelled from the spec: the token string a `TokenWire` value stands
for — the kind marker, then the subject, roles, timestamps and signature,
dot-separated.  Tokens of different kinds render to strings that differ
already in their first character. -/
def tokenString (t : TokenWire) : String :=
  match t with
  | .malformed raw => raw
  | .signed c sig =>
    String.mk ((c.kind.mark).data ++
      ('.' :: c.sub.data) ++
      ('.' :: (String.intercalate "," c.roles).data) ++
      ('.' :: natDigits c.iat.natAbs) ++
      ('.' :: natDigits c.exp.natAbs) ++
      ('.' :: natDigits sig))

/-- Modelled from the spec: the role registry, a static mapping from role
name to permission set supplied at construction. -/
abbrev RoleRegistry := List (String × Finset String)

/-- Modelled from the spec: registry lookup; unknown role names resolve
to the empty permission set rather than failing. -/
def lookupRole (reg : RoleRegistry) (r : String) : Finset String :=
  match reg.find? (fun e => e.1 == r) with
  | some e => e.2
  | none => ∅

/-- Modelled from the spec: a user's effective permissions, the union
over the user's role names of the registry's permission sets. -/
def permissionsFor (reg : RoleRegistry) (roles : List String) : Finset String :=
  roles.foldl (fun acc r => acc ∪ lookupRole reg r) ∅

/-- Modelled from the spec: the authenticated identity — user id, role
names, and the derived permission set. -/
structure AuthUser where
  user_id : String
  roles : List String
  permissions : Finset String
deriving DecidableEq

/-- Modelled from the spec: constructing an `AuthUser` computes its
permissions by union over registry lookups; they are not independently
settable. -/
def mkAuthUser (reg : RoleRegistry) (uid : String) (roles : List String) : AuthUser :=
  { user_id := uid, roles := roles, permissions := permissionsFor reg roles }

/-- Modelled from the spec: the token record returned to callers —
the signed token, its kind, and its expiry timestamp. -/
structure Token where
  token : TokenWire
  kind : TokenKind
  expires_at : Int
deriving DecidableEq, Repr

/-- Modelled from the spec: the configuration surface consumed by the
authentication core — `jwt_secret_key` (required, else
`ConfigurationError`) and the two TTLs.  `enable_refresh_tokens` is fixed
at its default `true` and omitted. -/
structure AuthConfig where
  jwt_secret_key : Option String
  access_ttl_seconds : Int
  refresh_ttl_seconds : Int
deriving DecidableEq, Repr

/-- Modelled from the spec: the token codec holds the configured secret. -/
structure TokenCodec where
  secret : Option String
deriving DecidableEq, Repr

/-- Modelled from the spec: `TokenCodec.encode(claims)` — a pure function
of the claims and the secret; fails with `ConfigurationError` if no
secret is configured. -/
def TokenCodec.encode (tc : TokenCodec) (c : Claims) : Except ExcValue TokenWire :=
  match tc.secret with
  | none => .error (mkConfigurationError "JWT secret key is not configured")
  | some s => .ok (.signed c (macClaims s c))

/-- Modelled from the spec: `TokenCodec.decode(token)` — verifies the
signature first and fails with `AuthenticationError` (signature or format
invalid) before ever inspecting expiry; if the signature is valid but
`exp` is in the past relative to `now`, fails with the distinct
`AuthenticationExpiredError`. -/
def TokenCodec.decode (tc : TokenCodec) (now : Int) (t : TokenWire) : Except ExcValue Claims :=
  match tc.secret with
  | none => .error (mkConfigurationError "JWT secret key is not configured")
  | some s =>
    match t with
    | .malformed _ => .error (mkAuthenticationError "Authentication failed" none)
    | .signed c sig =>
      if sig = macClaims s c then
        if c.exp < now then
          .error (mkAuthenticationExpiredError "Authentication token has expired" none)
        else
          .ok c
      else
        .error (mkAuthenticationError "Authentication failed" none)

/-- Modelled from the spec: `AuthManager` holds only immutable
configuration — the auth configuration and the role registry. -/
structure AuthManager where
  config : AuthConfig
  registry : RoleRegistry

/-- The codec an `AuthManager` delegates to, sharing its secret. -/
def AuthManager.codec (m : AuthManager) : TokenCodec :=
  ⟨m.config.jwt_secret_key⟩

/-- Modelled from the spec: the claims built for one kind of token —
`sub`/`roles` from the user, `iat = now`, `exp = iat + ttl`. -/
def mkClaims (u : AuthUser) (k : TokenKind) (now ttl : Int) : Claims :=
  { sub := u.user_id, roles := u.roles, kind := k, iat := now, exp := now + ttl }

/-- Modelled from the spec: `AuthManager.generate_tokens(user)` — builds
claims for both kinds from the same user at the same issue time, with the
independently configured TTLs, and encodes each via the codec. -/
def AuthManager.generate_tokens (m : AuthManager) (now : Int) (u : AuthUser) :
    Except ExcValue (Token × Token) :=
  let ac := mkClaims u .access now m.config.access_ttl_seconds
  let rc := mkClaims u .refresh now m.config.refresh_ttl_seconds
  match m.codec.encode ac, m.codec.encode rc with
  | .ok ta, .ok tr =>
    .ok (⟨ta, .access, ac.exp⟩, ⟨tr, .refresh, rc.exp⟩)
  | .error e, _ => .error e
  | _, .error e => .error e

/-- Modelled from the spec: `AuthManager.authenticate_with_jwt(token)` —
decodes via the codec; if decode fails for any reason the call returns
`None` rather than raising (the token kind is not checked here); on
success the `AuthUser` is reconstructed from the `sub`/`roles` claims,
recomputing permissions from the current registry. -/
def AuthManager.authenticate_with_jwt (m : AuthManager) (now : Int) (t : TokenWire) :
    Option AuthUser :=
  match m.codec.decode now t with
  | .error _ => none
  | .ok c => some (mkAuthUser m.registry c.sub c.roles)

/-- Modelled from the spec: `AuthManager.refresh_access_token(token)` —
decodes the token, fails with `AuthenticationError` unless the embedded
kind is `Refresh`, and on success issues a new access token for the same
user with fresh `iat`/`exp`. -/
def AuthManager.refresh_access_token (m : AuthManager) (now : Int) (t : TokenWire) :
    Except ExcValue Token :=
  match m.codec.decode now t with
  | .error e => .error e
  | .ok c =>
    if c.kind = .refresh then
      let ac : Claims :=
        { sub := c.sub, roles := c.roles, kind := .access,
          iat := now, exp := now + m.config.access_ttl_seconds }
      match m.codec.encode ac with
      | .ok tw => .ok ⟨tw, .access, ac.exp⟩
      | .error e => .error e
    else
      .error (mkAuthenticationError "Authentication failed" none)

/-- The claims a signed wire value carries, `none` on a malformed one. -/
def claimsOf : TokenWire → Option Claims
  | .signed c _ => some c
  | .malformed _ => none

/-! ## Concrete fixtures

Small concrete instances used to evaluate the development on the inputs
of `src/tests/test_new_features.py` and of section 8 of `spec.md`. -/

/-- The registry of spec section 8: `"admin"` maps to two permissions. -/
def regAdmin : RoleRegistry := [("admin", {"read:data", "write:data"})]

/-- The user `AuthUser(user_id="u1", roles=["user"])` of spec section 8. -/
def userU1 : AuthUser := ⟨"u1", ["user"], ∅⟩

/-- A manager configured with secret `"k"`, a 3600-second access TTL and
a 604800-second refresh TTL. -/
def mgrStd : AuthManager := ⟨⟨some "k", 3600, 604800⟩, regAdmin⟩

/-- The same manager with `access_ttl_seconds = -1`, the "already
expired" configuration of `test_expired_token_validation`. -/
def mgrNeg : AuthManager := ⟨⟨some "k", -1, 604800⟩, regAdmin⟩

/-- The access claims `mgrStd` issues for `userU1` at time 0. -/
def claimsA : Claims := ⟨"u1", ["user"], .access, 0, 3600⟩

/-- The refresh claims `mgrStd` issues for `userU1` at time 0. -/
def claimsR : Claims := ⟨"u1", ["user"], .refresh, 0, 604800⟩

/-- The access token `mgrStd` issues for `userU1` at time 0. -/
def tokA : Token := ⟨.signed claimsA (macClaims "k" claimsA), .access, 3600⟩

/-- The refresh token `mgrStd` issues for `userU1` at time 0. -/
def tokR : Token := ⟨.signed claimsR (macClaims "k" claimsR), .refresh, 604800⟩

/-- The access claims `mgrNeg` issues for `userU1` at time 1000: its
expiry 999 is already in the past at issue time. -/
def claimsNeg : Claims := ⟨"u1", ["user"], .access, 1000, 999⟩

/-- Code of the first character of a string (0 on the empty string);
used to separate rendered token strings of different kinds. -/
def firstCharCode (s : String) : Nat :=
  match s.data with
  | [] => 0
  | c :: _ => c.toNat

/-! ## Helper lemmas -/

/-- Membership in a left fold of unions: an element is in the fold
exactly when it is in the seed or in the image of some list element. -/
theorem mem_foldl_union (f : String → Finset String) (l : List String)
    (init : Finset String) (p : String) :
    p ∈ l.foldl (fun acc r => acc ∪ f r) init ↔ p ∈ init ∨ ∃ r ∈ l, p ∈ f r := by
  induction l generalizing init with
  | nil => simp
  | cons a t ih =>
    simp [List.foldl_cons, ih, Finset.mem_union, or_assoc]

/-! ## Claim theorems -/

/-- C1: for every `AuthUser` u under a configuration with a signing
secret and non-negative access TTL, `authenticate_with_jwt` applied to
the access token produced by `generate_tokens(u)` returns an `AuthUser`
whose `user_id` equals `u.user_id` and whose `roles` equal `u.roles`. -/
theorem auth_round_trip (m : AuthManager) (u : AuthUser) (now : Int) (s : String)
    (hs : m.config.jwt_secret_key = some s) (ht : 0 ≤ m.config.access_ttl_seconds) :
    ∃ ta tr, m.generate_tokens now u = .ok (ta, tr) ∧
      ∃ v, m.authenticate_with_jwt now ta.token = some v ∧
        v.user_id = u.user_id ∧ v.roles = u.roles := by
  refine ⟨⟨.signed (mkClaims u .access now m.config.access_ttl_seconds)
            (macClaims s (mkClaims u .access now m.config.access_ttl_seconds)),
           .access, now + m.config.access_ttl_seconds⟩,
          ⟨.signed (mkClaims u .refresh now m.config.refresh_ttl_seconds)
            (macClaims s (mkClaims u .refresh now m.config.refresh_ttl_seconds)),
           .refresh, now + m.config.refresh_ttl_seconds⟩, ?_, ?_⟩
  · simp [AuthManager.generate_tokens, AuthManager.codec, TokenCodec.encode, hs, mkClaims]
  · refine ⟨mkAuthUser m.registry u.user_id u.roles, ?_, rfl, rfl⟩
    have hlt : ¬ (now + m.config.access_ttl_seconds < now) := by omega
    simp [AuthManager.authenticate_with_jwt, AuthManager.codec, TokenCodec.decode, hs,
      mkClaims, hlt, mkAuthUser]

/-- C1 witness: the round trip evaluated for `userU1` under `mgrStd`. -/
theorem auth_round_trip_witness :
    ∃ ta tr, mgrStd.generate_tokens 0 userU1 = .ok (ta, tr) ∧
      ∃ v, mgrStd.authenticate_with_jwt 0 ta.token = some v ∧
        v.user_id = userU1.user_id ∧ v.roles = userU1.roles :=
  auth_round_trip mgrStd userU1 0 "k" rfl (by decide)

/-- C2: `authenticate_with_jwt` never propagates a decode failure: every
decode outcome is mapped to `some`/`none` (an error of any kind becomes
`none`, an absent secret becomes `none`), and an access token issued
under a negative access TTL — already expired at issue time — validates
to `none`. -/
theorem authenticate_with_jwt_never_raises (m : AuthManager) (now : Int) (t : TokenWire) :
    (∀ e, m.codec.decode now t = .error e → m.authenticate_with_jwt now t = none) ∧
    (∀ c, m.codec.decode now t = .ok c →
      m.authenticate_with_jwt now t = some (mkAuthUser m.registry c.sub c.roles)) ∧
    (m.config.jwt_secret_key = none → m.authenticate_with_jwt now t = none) ∧
    (∀ u s, m.config.jwt_secret_key = some s → m.config.access_ttl_seconds < 0 →
      ∀ ta tr, m.generate_tokens now u = .ok (ta, tr) →
        m.authenticate_with_jwt now ta.token = none) := by
  refine ⟨?_, ?_, ?_, ?_⟩
  · intro e he
    simp [AuthManager.authenticate_with_jwt, he]
  · intro c hc
    simp [AuthManager.authenticate_with_jwt, hc]
  · intro hnone
    simp [AuthManager.authenticate_with_jwt, AuthManager.codec, TokenCodec.decode, hnone]
  · intro u s hs hneg ta tr hgen
    have hp : m.generate_tokens now u = .ok
        (⟨.signed (mkClaims u .access now m.config.access_ttl_seconds)
            (macClaims s (mkClaims u .access now m.config.access_ttl_seconds)), .access,
          now + m.config.access_ttl_seconds⟩,
         ⟨.signed (mkClaims u .refresh now m.config.refresh_ttl_seconds)
            (macClaims s (mkClaims u .refresh now m.config.refresh_ttl_seconds)), .refresh,
          now + m.config.refresh_ttl_seconds⟩) := by
      simp [AuthManager.generate_tokens, AuthManager.codec, TokenCodec.encode, hs, mkClaims]
    rw [hp] at hgen
    have hpair := Except.ok.inj hgen
    have hta := ((Prod.mk.injEq _ _ _ _).mp hpair).1
    rw [← hta]
    have hlt : now + m.config.access_ttl_seconds < now := by omega
    simp [AuthManager.authenticate_with_jwt, AuthManager.codec, TokenCodec.decode, hs,
      mkClaims, hlt]

/-- C2 witness: under `mgrNeg` (access TTL −1) the freshly issued access
token — signed correctly but already expired — authenticates to `none`. -/
theorem authenticate_with_jwt_never_raises_witness :
    mgrNeg.authenticate_with_jwt 1000
      (Token.token ⟨.signed claimsNeg (macClaims "k" claimsNeg), .access, 999⟩) = none :=
  (authenticate_with_jwt_never_raises mgrNeg 1000
      (.signed claimsNeg (macClaims "k" claimsNeg))).2.2.2 userU1 "k" rfl (by decide)
    ⟨.signed claimsNeg (macClaims "k" claimsNeg), .access, 999⟩
    ⟨.signed ⟨"u1", ["user"], .refresh, 1000, 605800⟩
        (macClaims "k" ⟨"u1", ["user"], .refresh, 1000, 605800⟩), .refresh, 605800⟩
    (by decide)

/-- C3: `refresh_access_token` succeeds exactly on refresh-kind tokens:
a valid, unexpired token whose kind claim is `Refresh` yields a new
`Token` of kind `Access` for the same user, while a token whose kind
claim is `Access` fails with `AuthenticationError`. -/
theorem refresh_access_token_kind_gate (m : AuthManager) (now : Int) (c : Claims) (sig : Nat)
    (s : String) (hs : m.config.jwt_secret_key = some s) (hsig : sig = macClaims s c)
    (hexp : ¬ c.exp < now) :
    (c.kind = .refresh →
      ∃ tk c2 sig2, m.refresh_access_token now (.signed c sig) = .ok tk ∧
        tk.kind = .access ∧ tk.token = .signed c2 sig2 ∧
        c2.sub = c.sub ∧ c2.roles = c.roles ∧ c2.kind = .access) ∧
    (c.kind = .access →
      ∃ e, m.refresh_access_token now (.signed c sig) = .error e ∧
        e.cls = .authenticationError) := by
  constructor
  · intro hk
    refine ⟨⟨.signed ⟨c.sub, c.roles, .access, now, now + m.config.access_ttl_seconds⟩
              (macClaims s ⟨c.sub, c.roles, .access, now, now + m.config.access_ttl_seconds⟩),
             .access, now + m.config.access_ttl_seconds⟩,
            ⟨c.sub, c.roles, .access, now, now + m.config.access_ttl_seconds⟩, _, ?_,
            rfl, rfl, rfl, rfl, rfl⟩
    simp [AuthManager.refresh_access_token, AuthManager.codec, TokenCodec.decode,
      TokenCodec.encode, hs, hsig, hexp, hk]
  · intro hk
    refine ⟨mkAuthenticationError "Authentication failed" none, ?_, rfl⟩
    simp [AuthManager.refresh_access_token, AuthManager.codec, TokenCodec.decode,
      TokenCodec.encode, hs, hsig, hexp, hk]

/-- C3 witness: under `mgrStd`, refreshing with the refresh claims of
`userU1` succeeds, and refreshing with the access claims fails with
`AuthenticationError`. -/
theorem refresh_access_token_kind_gate_witness :
    (∃ tk c2 sig2, mgrStd.refresh_access_token 1 (.signed claimsR (macClaims "k" claimsR)) = .ok tk ∧
      tk.kind = .access ∧ tk.token = .signed c2 sig2 ∧
      c2.sub = claimsR.sub ∧ c2.roles = claimsR.roles ∧ c2.kind = .access) ∧
    (∃ e, mgrStd.refresh_access_token 1 (.signed claimsA (macClaims "k" claimsA)) = .error e ∧
      e.cls = .authenticationError) :=
  ⟨(refresh_access_token_kind_gate mgrStd 1 claimsR (macClaims "k" claimsR) "k"
      rfl rfl (by decide)).1 rfl,
   (refresh_access_token_kind_gate mgrStd 1 claimsA (macClaims "k" claimsA) "k"
      rfl rfl (by decide)).2 rfl⟩

/-- C4: `TokenCodec.decode` checks the signature before expiry and keeps
the two failures distinct: a malformed token or a wrong signature fails
with `AuthenticationError` whatever the embedded expiry says, while a
correctly signed token whose `exp` lies before `now` fails with
`AuthenticationExpiredError`; the two exception classes differ. -/
theorem decode_checks_signature_before_expiry (s : String) (now : Int) :
    (∀ raw, TokenCodec.decode ⟨some s⟩ now (.malformed raw) =
      .error (mkAuthenticationError "Authentication failed" none)) ∧
    (∀ c sig, sig ≠ macClaims s c → TokenCodec.decode ⟨some s⟩ now (.signed c sig) =
      .error (mkAuthenticationError "Authentication failed" none)) ∧
    (∀ c sig, sig = macClaims s c → c.exp < now → TokenCodec.decode ⟨some s⟩ now (.signed c sig) =
      .error (mkAuthenticationExpiredError "Authentication token has expired" none)) ∧
    (mkAuthenticationExpiredError "Authentication token has expired" none).cls ≠
      (mkAuthenticationError "Authentication failed" none).cls := by
  refine ⟨?_, ?_, ?_, by decide⟩
  · intro raw
    simp [TokenCodec.decode]
  · intro c sig hsig
    simp [TokenCodec.decode, hsig]
  · intro c sig hsig hexp
    simp [TokenCodec.decode, hsig, hexp]

/-- C4 witness: with secret `"k"` at time 0, a malformed token and a
token with a flipped signature fail as `AuthenticationError` (the latter
even with a past expiry), and a correctly signed past-expiry token fails
as the distinct `AuthenticationExpiredError`. -/
theorem decode_checks_signature_before_expiry_witness :
    (TokenCodec.decode ⟨some "k"⟩ 0 (.malformed "garbage") =
      .error (mkAuthenticationError "Authentication failed" none)) ∧
    (TokenCodec.decode ⟨some "k"⟩ 1000 (.signed claimsNeg (macClaims "k" claimsNeg + 1)) =
      .error (mkAuthenticationError "Authentication failed" none)) ∧
    (TokenCodec.decode ⟨some "k"⟩ 1000 (.signed claimsNeg (macClaims "k" claimsNeg)) =
      .error (mkAuthenticationExpiredError "Authentication token has expired" none)) :=
  ⟨(decode_checks_signature_before_expiry "k" 0).1 "garbage",
   (decode_checks_signature_before_expiry "k" 1000).2.1 claimsNeg
     (macClaims "k" claimsNeg + 1) (by omega),
   (decode_checks_signature_before_expiry "k" 1000).2.2.1 claimsNeg
     (macClaims "k" claimsNeg) rfl (by decide)⟩

/-- C5 counterexample: the claim's invariant `exp > iat` fails on the
code as the spec itself configures it — with `access_ttl_seconds = -1`
(the configuration of `test_expired_token_validation`), the access token
issued at time 1000 carries `exp = 999 ≤ iat = 1000`. -/
theorem token_exp_gt_iat_counterexample :
    ∃ ta tr, mgrNeg.generate_tokens 1000 userU1 = .ok (ta, tr) ∧
      ∃ c sig, ta.token = .signed c sig ∧ ¬ c.iat < c.exp :=
  ⟨_, _, rfl, _, _, rfl, by decide⟩

/-- C5 (amended): every token issued by `generate_tokens` or
`refresh_access_token` carries `exp = iat + TTL` for its kind, and
`exp > iat` whenever the configured TTL is positive; any correctly
signed token whose `exp` is past the validation time fails to decode. -/
theorem token_ttl_invariant (m : AuthManager) (u : AuthUser) (now now2 : Int)
    (t : TokenWire) (s : String) (hs : m.config.jwt_secret_key = some s) :
    (∀ ta tr, m.generate_tokens now u = .ok (ta, tr) →
      ∃ ca sa cr sr, ta.token = .signed ca sa ∧ tr.token = .signed cr sr ∧
        ca.exp = ca.iat + m.config.access_ttl_seconds ∧
        cr.exp = cr.iat + m.config.refresh_ttl_seconds ∧
        (0 < m.config.access_ttl_seconds → ca.iat < ca.exp) ∧
        (0 < m.config.refresh_ttl_seconds → cr.iat < cr.exp)) ∧
    (∀ tk, m.refresh_access_token now t = .ok tk →
      ∃ c2 s2, tk.token = .signed c2 s2 ∧
        c2.exp = c2.iat + m.config.access_ttl_seconds ∧
        (0 < m.config.access_ttl_seconds → c2.iat < c2.exp)) ∧
    (∀ c sig, sig = macClaims s c → c.exp < now2 →
      TokenCodec.decode ⟨some s⟩ now2 (.signed c sig) =
        .error (mkAuthenticationExpiredError "Authentication token has expired" none)) := by
  refine ⟨?_, ?_, ?_⟩
  · intro ta tr hgen
    have hp : m.generate_tokens now u = .ok
        (⟨.signed (mkClaims u .access now m.config.access_ttl_seconds)
            (macClaims s (mkClaims u .access now m.config.access_ttl_seconds)), .access,
          now + m.config.access_ttl_seconds⟩,
         ⟨.signed (mkClaims u .refresh now m.config.refresh_ttl_seconds)
            (macClaims s (mkClaims u .refresh now m.config.refresh_ttl_seconds)), .refresh,
          now + m.config.refresh_ttl_seconds⟩) := by
      simp [AuthManager.generate_tokens, AuthManager.codec, TokenCodec.encode, hs, mkClaims]
    rw [hp] at hgen
    have hpair := Except.ok.inj hgen
    have hta := ((Prod.mk.injEq _ _ _ _).mp hpair).1
    have htr := ((Prod.mk.injEq _ _ _ _).mp hpair).2
    rw [← hta, ← htr]
    exact ⟨_, _, _, _, rfl, rfl, by simp [mkClaims], by simp [mkClaims],
      fun h => by simp [mkClaims]; omega, fun h => by simp [mkClaims]; omega⟩
  · intro tk href
    cases hdec : m.codec.decode now t with
    | error e =>
      simp [AuthManager.refresh_access_token, hdec] at href
    | ok c =>
      have hdec2 : ({ secret := some s } : TokenCodec).decode now t = .ok c := by
        rw [← hdec]
        simp [AuthManager.codec, hs]
      by_cases hk : c.kind = .refresh
      · simp [AuthManager.refresh_access_token, AuthManager.codec, hs, hdec2, hk,
          TokenCodec.encode] at href
        rw [← href]
        exact ⟨_, _, rfl, by simp, fun h => by simp; omega⟩
      · simp [AuthManager.refresh_access_token, AuthManager.codec, hs, hdec2, hk] at href
  · intro c sig hsig hexp
    simp [TokenCodec.decode, hsig, hexp]

/-- C5 witness: under `mgrStd` (`access_ttl_seconds = 3600`), the access
token issued at time 0 satisfies `exp = iat + 3600`. -/
theorem token_ttl_invariant_witness :
    ∃ ca sa cr sr, tokA.token = .signed ca sa ∧ tokR.token = .signed cr sr ∧
      ca.exp = ca.iat + 3600 ∧ cr.exp = cr.iat + 604800 ∧
      ((0 : Int) < 3600 → ca.iat < ca.exp) ∧ ((0 : Int) < 604800 → cr.iat < cr.exp) :=
  (token_ttl_invariant mgrStd userU1 0 0 (.malformed "x") "k" rfl).1 tokA tokR (by decide)

/-- C6: for every `AuthUser` u, the access and refresh tokens returned
by `generate_tokens(u)` are never equal — neither as wire values nor as
rendered strings — and carry different `kind` claims (`Access` versus
`Refresh`). -/
theorem generate_tokens_distinct (m : AuthManager) (u : AuthUser) (now : Int) (s : String)
    (hs : m.config.jwt_secret_key = some s) :
    ∃ ta tr, m.generate_tokens now u = .ok (ta, tr) ∧
      ta.token ≠ tr.token ∧ tokenString ta.token ≠ tokenString tr.token ∧
      ∃ ca sa cr sr, ta.token = .signed ca sa ∧ tr.token = .signed cr sr ∧
        ca.kind = .access ∧ cr.kind = .refresh ∧ ca.kind ≠ cr.kind := by
  refine ⟨⟨.signed (mkClaims u .access now m.config.access_ttl_seconds)
            (macClaims s (mkClaims u .access now m.config.access_ttl_seconds)),
           .access, now + m.config.access_ttl_seconds⟩,
          ⟨.signed (mkClaims u .refresh now m.config.refresh_ttl_seconds)
            (macClaims s (mkClaims u .refresh now m.config.refresh_ttl_seconds)),
           .refresh, now + m.config.refresh_ttl_seconds⟩, ?_, ?_, ?_,
          _, _, _, _, rfl, rfl, rfl, rfl, ?_⟩
  · simp [AuthManager.generate_tokens, AuthManager.codec, TokenCodec.encode, hs, mkClaims]
  · intro h
    injection h with hc hsig
    have hkind := congrArg Claims.kind hc
    simp [mkClaims] at hkind
  · intro h
    have e1 : firstCharCode (tokenString (.signed
        (mkClaims u .access now m.config.access_ttl_seconds)
        (macClaims s (mkClaims u .access now m.config.access_ttl_seconds)))) = 97 := by
      simp [tokenString, firstCharCode, mkClaims, TokenKind.mark]
    have e2 : firstCharCode (tokenString (.signed
        (mkClaims u .refresh now m.config.refresh_ttl_seconds)
        (macClaims s (mkClaims u .refresh now m.config.refresh_ttl_seconds)))) = 114 := by
      simp [tokenString, firstCharCode, mkClaims, TokenKind.mark]
    rw [h, e2] at e1
    exact absurd e1 (by decide)
  · simp [mkClaims]

/-- C6 witness: the distinctness evaluated for `userU1` under `mgrStd`. -/
theorem generate_tokens_distinct_witness :
    ∃ ta tr, mgrStd.generate_tokens 0 userU1 = .ok (ta, tr) ∧
      ta.token ≠ tr.token ∧ tokenString ta.token ≠ tokenString tr.token ∧
      ∃ ca sa cr sr, ta.token = .signed ca sa ∧ tr.token = .signed cr sr ∧
        ca.kind = .access ∧ cr.kind = .refresh ∧ ca.kind ≠ cr.kind :=
  generate_tokens_distinct mgrStd userU1 0 "k" rfl

/-- C7: an `AuthUser`'s permissions are the union over its role names of
the registry's permission sets, with every name absent from the registry
contributing the empty set: a user whose only role is `"admin"` (mapped
to `{"read:data","write:data"}`) has exactly those permissions, and a
user whose only role is the unregistered `"ghost"` has none. -/
theorem auth_user_permissions_union (reg : RoleRegistry) (uid : String) (roles : List String) :
    (∀ p, p ∈ (mkAuthUser reg uid roles).permissions ↔ ∃ r ∈ roles, p ∈ lookupRole reg r) ∧
    (∀ r, reg.find? (fun e => e.1 == r) = none → lookupRole reg r = ∅) ∧
    (mkAuthUser regAdmin "a" ["admin"]).permissions = {"read:data", "write:data"} ∧
    (mkAuthUser regAdmin "g" ["ghost"]).permissions = ∅ := by
  refine ⟨?_, ?_, by decide, by decide⟩
  · intro p
    simp [mkAuthUser, permissionsFor, mem_foldl_union]
  · intro r h
    simp [lookupRole, h]

/-- C7 witness: the unregistered role `"ghost"` resolves to the empty
permission set under `regAdmin`. -/
theorem auth_user_permissions_union_witness :
    lookupRole regAdmin "ghost" = ∅ :=
  (auth_user_permissions_union regAdmin "g" ["ghost"]).2.1 "ghost" (by decide)

/-- C8: with a configured (non-empty) API key, `Client._request` sends
an `Authorization: Bearer <key>` header, and a 401 response raises
`AuthenticationError` carrying the response body. -/
theorem client_bearer_and_401 (k : String) (hs0 : List (String × String)) (r : Response)
    (hk : k ≠ "") :
    lookupHeader (Client.request (some k) hs0 r).1 "Authorization" = some ("Bearer " ++ k) ∧
    (r.status_code = 401 →
      ∃ e, (Client.request (some k) hs0 r).2 = .error e ∧
        e.cls = .authenticationError ∧ e.status_code = some 401 ∧
        e.response_text = some r.text) := by
  constructor
  · simp [Client.request, requestHeaders, hk, setHeader, lookupHeader]
  · intro h401
    refine ⟨mkAuthenticationError "Authentication failed - check your API key" (some r.text),
      ?_, rfl, rfl, rfl⟩
    simp [Client.request, handleStatus, h401]

/-- C8 witness: the bearer header and the 401 mapping evaluated for the
key `"test_key"` and the response body `"Unauthorized"`. -/
theorem client_bearer_and_401_witness :
    lookupHeader (Client.request (some "test_key") [] ⟨401, "Unauthorized"⟩).1 "Authorization" =
      some ("Bearer " ++ "test_key") ∧
    ∃ e, (Client.request (some "test_key") [] ⟨401, "Unauthorized"⟩).2 = .error e ∧
      e.cls = .authenticationError ∧ e.status_code = some 401 ∧
      e.response_text = some (Response.text ⟨401, "Unauthorized"⟩) :=
  ⟨(client_bearer_and_401 "test_key" [] ⟨401, "Unauthorized"⟩ (by decide)).1,
   (client_bearer_and_401 "test_key" [] ⟨401, "Unauthorized"⟩ (by decide)).2 rfl⟩

/-- C9: `AuthenticationExpiredError` and `TokenRefreshError` both carry
`status_code` 401 and are subclasses of `AuthenticationError` (and of
themselves), so a handler catching `AuthenticationError` also catches
them: the failure kinds are subtype versus supertype, never disjoint. -/
theorem expired_error_is_authentication_error :
    (∀ msg rt, (mkAuthenticationExpiredError msg rt).status_code = some 401) ∧
    (∀ msg rt, (mkTokenRefreshError msg rt).status_code = some 401) ∧
    ExcClass.isSubclassOf .authenticationExpiredError .authenticationError = true ∧
    ExcClass.isSubclassOf .tokenRefreshError .authenticationError = true ∧
    ExcClass.isSubclassOf .authenticationExpiredError .authenticationExpiredError = true ∧
    ExcClass.isSubclassOf .tokenRefreshError .tokenRefreshError = true :=
  ⟨fun _ _ => rfl, fun _ _ => rfl, by decide, by decide, by decide, by decide⟩

/-- C10: `Client._request` returns the response exactly for 2xx status
codes; 401, 404 and 429 raise `AuthenticationError`, `NotFoundError` and
`RateLimitError`, every other non-2xx status raises `APIError` with that
status code; every raised exception carries the response body; and with
no API key configured the caller's headers are sent untouched, so no
`Authorization` header is added. -/
theorem client_request_status_mapping (r : Response) (hs0 : List (String × String)) :
    ((∃ resp, handleStatus r = .ok resp) ↔ (200 ≤ r.status_code ∧ r.status_code < 300)) ∧
    (handleStatus r = .ok r ∨ ∃ e, handleStatus r = .error e ∧ e.response_text = some r.text) ∧
    (r.status_code = 401 → handleStatus r =
      .error (mkAuthenticationError "Authentication failed - check your API key" (some r.text))) ∧
    (r.status_code = 404 → handleStatus r =
      .error (mkNotFoundError "Resource not found" (some r.text))) ∧
    (r.status_code = 429 → handleStatus r =
      .error (mkRateLimitError "Rate limit exceeded - too many requests" (some r.text))) ∧
    (¬ (200 ≤ r.status_code ∧ r.status_code < 300) →
      r.status_code ≠ 401 → r.status_code ≠ 404 → r.status_code ≠ 429 →
      handleStatus r = .error (mkAPIError ("API request failed with status " ++
        toString r.status_code) r.status_code (some r.text))) ∧
    requestHeaders none hs0 = hs0 := by
  refine ⟨?_, ?_, ?_, ?_, ?_, ?_, rfl⟩
  · unfold handleStatus
    split
    · rename_i hcond
      split
      · simpa using hcond
      · split
        · simpa using hcond
        · split
          · simpa using hcond
          · simpa using hcond
    · rename_i hcond
      simp only [not_not] at hcond
      constructor
      · intro _
        exact hcond
      · intro _
        exact ⟨r, rfl⟩
  · unfold handleStatus
    split
    · split
      · exact Or.inr ⟨_, rfl, rfl⟩
      · split
        · exact Or.inr ⟨_, rfl, rfl⟩
        · split
          · exact Or.inr ⟨_, rfl, rfl⟩
          · exact Or.inr ⟨_, rfl, rfl⟩
    · exact Or.inl rfl
  · intro h
    simp [handleStatus, h]
  · intro h
    simp [handleStatus, h]
  · intro h
    simp [handleStatus, h]
  · intro h1 h2 h3 h4
    simp [handleStatus, h1, h2, h3, h4]

/-- C10 witness: a 404 response with body `"Not Found"` raises
`NotFoundError` carrying that body, and with no API key the caller's
headers pass through unchanged. -/
theorem client_request_status_mapping_witness :
    handleStatus ⟨404, "Not Found"⟩ =
      .error (mkNotFoundError "Resource not found" (some "Not Found")) ∧
    requestHeaders none [("X-Custom", "value")] = [("X-Custom", "value")] :=
  ⟨(client_request_status_mapping ⟨404, "Not Found"⟩ []).2.2.2.1 rfl,
   (client_request_status_mapping ⟨404, "Not Found"⟩ [("X-Custom", "value")]).2.2.2.2.2.2⟩
